import Mathlib

/-!
Verification development for the `basic-cluster` task-pool library.

The embedding follows the two core source components:

* `BasicInstance<C>` (src/instance/BasicInstance.ts): an execution context
  holding an opaque payload `context : C` and a `runningTask` busy flag, with
  `isFree`, `lock`, `release` and `submit` (lock, run the task, release in a
  `finally`-equivalent path).  Its abstract `shutdown()` operation is modelled
  by a ghost queue `shutdownResults` giving the outcome of each successive
  shutdown invocation (`true` = that invocation rejects; an exhausted queue
  means further invocations succeed) together with a ghost invocation counter
  `shutdownCount`.

* `Cluster<C>` (src/main/cluster/Cluster.ts): the pool, holding
  `maxInstances`, the insertion-ordered collection `instances` (a JS `Set`
  iterates in insertion order), the size of `instancesBeingCreated`, and the
  lifecycle `state` (`'ready' | 'shutting down' | 'shutdown'`).

The per-attempt body of `Cluster.acquire` (the callback handed to `backOff`)
is embedded as `Cluster.acquireBody`; the `exponential-backoff` loop with the
`retry` predicate installed by `getBackoffOptions` is embedded as
`Cluster.acquireRun`, parameterised by the allowed number of attempts, with
the `.catch((error) => Promise.reject(error.message))` projection embedded as
`Cluster.acquireReject`.  The shutdown paths (`shutdown`, `shutdownNow`,
`performShutdown`) are embedded likewise; the count of busy instances seen by
each graceful-shutdown attempt is supplied as a schedule, modelling tasks
completing (or not) between backoff retries.

Finally, the concurrency of the cooperative (micro)task scheduler is captured
by a small labelled transition system `step`/`execTrace` over `Sys`, whose
events are exactly the atomic code regions of the source between suspension
points: the synchronous decision part of an acquisition attempt
(`startCreate`/`pickFree`), the continuation of a resolved or rejected
instance creation (`finishCreate`/`failCreate`), the `lock` performed by
`BasicInstance.submit` once the acquired instance reaches it (a *separate*
microtask from the acquisition decision, which is where the code's
double-hand-out race lives), task completion (`release`), and the shutdown
transitions.  The `.then`/`.finally` continuations of a resolved creation
(add to `instances`, delete from `instancesBeingCreated`) are modelled as one
atomic step.
-/

/-- Lifecycle states of the pool: `'ready' | 'shutting down' | 'shutdown'`. -/
inductive ClusterState where
  | ready
  | shuttingDown
  | shutdown
deriving DecidableEq, Repr

/-- An execution context (`BasicInstance<C>`): payload, busy flag, and ghost
data describing the outcomes of its successive `shutdown()` invocations. -/
structure BasicInstance (C : Type) where
  context : C
  runningTask : Bool
  shutdownResults : List Bool
  shutdownCount : Nat
deriving DecidableEq, Repr

/-- the source `isFree(): boolean { return !this.runningTask; }`. -/
def BasicInstance.isFree {C : Type} (b : BasicInstance C) : Bool :=
  !b.runningTask

/-- the source `lock()`: sets `runningTask = true` (unconditionally; there is
no check that the instance was free). -/
def BasicInstance.lock {C : Type} (b : BasicInstance C) : BasicInstance C :=
  { b with runningTask := true }

/-- the source `release()`: sets `runningTask = false`. -/
def BasicInstance.release {C : Type} (b : BasicInstance C) : BasicInstance C :=
  { b with runningTask := false }

/-- the source `BasicInstance.submit`: `await this.lock();
return task(this.context).finally(() => this.release())`.  The task is a
function from the payload to a settled promise (`Except E R`: resolved value
or thrown error); the instance is released whichever way the task settles,
and the task's own outcome is returned untouched. -/
def BasicInstance.submit {C E R : Type} (b : BasicInstance C)
    (task : C → Except E R) : BasicInstance C × Except E R :=
  let locked := b.lock
  let r := task locked.context
  (locked.release, r)

/-- one `shutdown()` invocation on an instance: consumes the next entry of
the ghost outcome queue (`true` = this invocation rejects) and bumps the
ghost invocation counter. -/
def BasicInstance.invokeShutdown {C : Type} (b : BasicInstance C) :
    BasicInstance C × Bool :=
  match b.shutdownResults with
  | [] => ({ b with shutdownCount := b.shutdownCount + 1 }, false)
  | r :: rest =>
      ({ b with shutdownCount := b.shutdownCount + 1, shutdownResults := rest }, r)

/-- Errors thrown inside the `backOff` bodies: `UnretryableError` (with its
message) or a plain `Error` (with its message, `""` for `new Error()`). -/
inductive AcquireError where
  | unretryable (msg : String)
  | plainError (msg : String)
deriving DecidableEq, Repr

/-- the `retry` predicate installed by `Cluster.getBackoffOptions`:
`(error) => !(error instanceof UnretryableError)`. -/
def retryDecision : AcquireError → Bool
  | AcquireError.unretryable _ => false
  | AcquireError.plainError _ => true

/-- the `message` property of the thrown error. -/
def errorMessage : AcquireError → String
  | AcquireError.unretryable m => m
  | AcquireError.plainError m => m

/-- Outcome of one execution of the `acquire` backoff body: the index of the
first free instance, the decision to create a new instance, or a thrown
error. -/
inductive AcquireOutcome where
  | acquired (i : Nat)
  | createNew
  | failure (e : AcquireError)
deriving DecidableEq, Repr

/-- index of the first free instance in insertion order: the source's
`[...this.instances].filter((instance) => instance.isFree())[0]`. -/
def firstFreeIdx {C : Type} : List (BasicInstance C) → Option Nat
  | [] => none
  | b :: bs =>
      if b.isFree then some 0
      else (firstFreeIdx bs).map (fun i => i + 1)

/-- The pool (`Cluster<C>`): capacity, insertion-ordered live instances, the
size of `instancesBeingCreated`, and the lifecycle state. -/
structure Cluster (C : Type) where
  maxInstances : Nat
  instances : List (BasicInstance C)
  instancesBeingCreated : Nat
  state : ClusterState
deriving DecidableEq, Repr

/-- the body of `Cluster.acquire`'s `backOff` callback (Cluster.ts lines
148-173): reject unretryably in `'shutting down'` / `'shutdown'`; otherwise
take the first free instance; otherwise create a new one when
`instances.size < maxInstances && instancesBeingCreated.size <
maxInstances - instances.size`; otherwise `throw new Error()`. -/
def Cluster.acquireBody {C : Type} (c : Cluster C) : AcquireOutcome :=
  if c.state = ClusterState.shuttingDown then
    AcquireOutcome.failure
      (AcquireError.unretryable "Cannot submit new tasks because the cluster is shutting down")
  else if c.state = ClusterState.shutdown then
    AcquireOutcome.failure
      (AcquireError.unretryable "Cannot submit new tasks because the cluster has been shutdown")
  else
    match firstFreeIdx c.instances with
    | none =>
        if c.instances.length < c.maxInstances ∧
            c.instancesBeingCreated < c.maxInstances - c.instances.length then
          AcquireOutcome.createNew
        else
          AcquireOutcome.failure (AcquireError.plainError "")
    | some i => AcquireOutcome.acquired i

/-- one attempt of the backoff loop, as a settled result. -/
def Cluster.attemptOutcome {C : Type} (c : Cluster C) :
    Except AcquireError AcquireOutcome :=
  match c.acquireBody with
  | AcquireOutcome.failure e => Except.error e
  | r => Except.ok r

/-- the `backOff` loop around `acquireBody` with `numOfAttempts = n`, over a
pool whose observable state does not change between attempts.  Returns the
final settled result together with the number of attempts actually executed:
the loop stops at the first success, stops without retrying when the `retry`
predicate refuses the error, and otherwise retries until attempts are
exhausted, rejecting with the last error. -/
def Cluster.acquireRun {C : Type} (c : Cluster C) :
    Nat → Except AcquireError AcquireOutcome × Nat
  | 0 => (Except.error (AcquireError.plainError ""), 0)
  | n + 1 =>
      match c.attemptOutcome with
      | Except.ok r => (Except.ok r, 1)
      | Except.error e =>
          if retryDecision e = false then (Except.error e, 1)
          else if n = 0 then (Except.error e, 1)
          else ((c.acquireRun n).1, (c.acquireRun n).2 + 1)

/-- the `.catch((error: Error) => Promise.reject(error.message))` at the end
of `Cluster.acquire`: when the backoff loop rejects, the caller of `submit`
sees the error's message string as the rejection reason. -/
def Cluster.acquireReject {C : Type} (c : Cluster C) (n : Nat) : Option String :=
  match (c.acquireRun n).1 with
  | Except.error e => some (errorMessage e)
  | Except.ok _ => none

/-- `Cluster.submit` (`this.acquire(...).then((instance) =>
instance.submit(task))`) in the case where the acquisition body finds a free
instance: the instance is run through `BasicInstance.submit` and written
back; `none` when the body does not take that path. -/
def Cluster.submitOnFree {C E R : Type} (c : Cluster C) (task : C → Except E R) :
    Option (Cluster C × Except E R) :=
  match c.acquireBody with
  | AcquireOutcome.acquired i =>
      match c.instances[i]? with
      | some b =>
          some ({ c with instances := c.instances.set i (b.submit task).1 },
                (b.submit task).2)
      | none => none
  | _ => none

/-- invoke `shutdown()` on every instance of the list (the
`[...this.instances].map(async (instance) => instance.shutdown())` of
`performShutdown`) and join them (`Promise.all`): all invocations happen,
and the joined promise succeeds iff none rejected. -/
def shutdownAll {C : Type} : List (BasicInstance C) → List (BasicInstance C) × Bool
  | [] => ([], true)
  | b :: bs =>
      (b.invokeShutdown.1 :: (shutdownAll bs).1,
       (!b.invokeShutdown.2) && (shutdownAll bs).2)

/-- `Cluster.performShutdown`: shut every instance down concurrently, join,
and on success set `state = 'shutdown'` (the state assignment lives in the
`.then`, so a rejected `Promise.all` leaves the state untouched).  The `Bool`
is whether the returned promise resolved. -/
def Cluster.performShutdown {C : Type} (c : Cluster C) : Cluster C × Bool :=
  if (shutdownAll c.instances).2 then
    ({ c with instances := (shutdownAll c.instances).1,
              state := ClusterState.shutdown }, true)
  else
    ({ c with instances := (shutdownAll c.instances).1 }, false)

/-- the graceful `backOff` loop of `Cluster.shutdown`: each attempt observes
the number of busy instances (supplied as the schedule entry for that
attempt, modelling tasks completing between retries); a positive count makes
the attempt throw a retryable `"k still in use"` error, a zero count runs
`performShutdown`, whose rejection is also retryable.  The schedule length is
the allowed number of attempts; the `Bool` says whether the loop resolved. -/
def Cluster.runGraceful {C : Type} (c : Cluster C) : List Nat → Cluster C × Bool
  | [] => (c, false)
  | k :: rest =>
      if 0 < k then
        match rest with
        | [] => (c, false)
        | _ :: _ => c.runGraceful rest
      else
        match c.performShutdown with
        | (c2, true) => (c2, true)
        | (c2, false) =>
            match rest with
            | [] => (c2, false)
            | _ :: _ => c2.runGraceful rest

/-- `Cluster.shutdown` (Cluster.ts lines 91-113): `false` immediately unless
`'ready'`; otherwise move to `'shutting down'`, run the graceful backoff
loop, on its rejection fall back to a forced `performShutdown` (the
`.catch`), and resolve `true` (the final `.then`).  `Except.error ()` marks
the one way the promise can reject: the fallback `performShutdown` itself
rejecting. -/
def Cluster.shutdown {C : Type} (c : Cluster C) (sched : List Nat) :
    Cluster C × Except Unit Bool :=
  if c.state = ClusterState.ready then
    match Cluster.runGraceful { c with state := ClusterState.shuttingDown } sched with
    | (c2, true) => (c2, Except.ok true)
    | (c2, false) =>
        match c2.performShutdown with
        | (c3, true) => (c3, Except.ok true)
        | (c3, false) => (c3, Except.error ())
  else
    (c, Except.ok false)

/-- `Cluster.shutdownNow` (Cluster.ts lines 120-127): `false` immediately
unless `'ready'`; otherwise move to `'shutting down'` and run
`performShutdown` at once, resolving `true` when it resolves. -/
def Cluster.shutdownNow {C : Type} (c : Cluster C) : Cluster C × Except Unit Bool :=
  if c.state = ClusterState.ready then
    match Cluster.performShutdown { c with state := ClusterState.shuttingDown } with
    | (c2, true) => (c2, Except.ok true)
    | (c2, false) => (c2, Except.error ())
  else
    (c, Except.ok false)

/-- a system configuration for the interleaving semantics: the pool plus
ghost bookkeeping.  `pending` holds the indices of instances that an
acquisition attempt has already returned but whose `BasicInstance.submit`
has not yet run its `lock` (the acquisition resolution and the lock live in
different microtasks); `holds` holds the indices of instances currently
being run against by a task; `creationsStarted` / `creationsFailed` count
`createNewInstance` calls and rejected creations. -/
structure Sys (C : Type) where
  cluster : Cluster C
  pending : List Nat
  holds : List Nat
  creationsStarted : Nat
  creationsFailed : Nat
deriving DecidableEq, Repr

/-- Atomic events of the cooperative scheduler, one per code region between
suspension points. -/
inductive Ev (C : Type) where
  /-- an acquisition attempt whose body decides to create a new instance:
  `createNewInstance` synchronously adds the promise to
  `instancesBeingCreated` before any suspension. -/
  | startCreate
  /-- an acquisition attempt whose body finds a free instance and returns it
  (`freeInstances[0]`); the busy flag is not touched here. -/
  | pickFree
  /-- a pending creation resolves: the `.then`/`.finally` continuation adds
  the new instance (free) to `instances` and removes the promise from
  `instancesBeingCreated`; `waited = true` when an acquisition attempt was
  awaiting this creation and is handed the new instance. -/
  | finishCreate (ctx : C) (results : List Bool) (waited : Bool)
  /-- a pending creation rejects: the `.finally` continuation removes the
  promise from `instancesBeingCreated`. -/
  | failCreate
  /-- a task handed instance `pending[k]` reaches `BasicInstance.submit`,
  which performs `lock` (unconditionally) and starts running. -/
  | lock (k : Nat)
  /-- the task holding `holds[k]` settles and the `finally` releases the
  instance. -/
  | release (k : Nat)
  /-- `shutdown()` / `shutdownNow()` entered on a ready pool: the state moves
  to `'shutting down'` synchronously. -/
  | reqShutdown
  /-- the shutdown sequence runs `performShutdown` once. -/
  | doneShutdown
deriving DecidableEq, Repr

/-- one atomic step of the system; `none` when the event is not enabled. -/
def step {C : Type} (s : Sys C) : Ev C → Option (Sys C)
  | Ev.startCreate =>
      match s.cluster.acquireBody with
      | AcquireOutcome.createNew =>
          some { s with
            cluster := { s.cluster with
              instancesBeingCreated := s.cluster.instancesBeingCreated + 1 },
            creationsStarted := s.creationsStarted + 1 }
      | _ => none
  | Ev.pickFree =>
      match s.cluster.acquireBody with
      | AcquireOutcome.acquired i => some { s with pending := s.pending ++ [i] }
      | _ => none
  | Ev.finishCreate ctx results waited =>
      if s.cluster.instancesBeingCreated = 0 then none
      else
        some { s with
          cluster := { s.cluster with
            instances := s.cluster.instances ++
              [{ context := ctx, runningTask := false,
                 shutdownResults := results, shutdownCount := 0 }],
            instancesBeingCreated := s.cluster.instancesBeingCreated - 1 },
          pending :=
            if waited then s.pending ++ [s.cluster.instances.length] else s.pending }
  | Ev.failCreate =>
      if s.cluster.instancesBeingCreated = 0 then none
      else
        some { s with
          cluster := { s.cluster with
            instancesBeingCreated := s.cluster.instancesBeingCreated - 1 },
          creationsFailed := s.creationsFailed + 1 }
  | Ev.lock k =>
      match s.pending[k]? with
      | some i =>
          match s.cluster.instances[i]? with
          | some b =>
              some { s with
                cluster := { s.cluster with
                  instances := s.cluster.instances.set i b.lock },
                pending := s.pending.eraseIdx k,
                holds := s.holds ++ [i] }
          | none => none
      | none => none
  | Ev.release k =>
      match s.holds[k]? with
      | some i =>
          match s.cluster.instances[i]? with
          | some b =>
              some { s with
                cluster := { s.cluster with
                  instances := s.cluster.instances.set i b.release },
                holds := s.holds.eraseIdx k }
          | none => none
      | none => none
  | Ev.reqShutdown =>
      if s.cluster.state = ClusterState.ready then
        some { s with cluster := { s.cluster with state := ClusterState.shuttingDown } }
      else none
  | Ev.doneShutdown =>
      if s.cluster.state = ClusterState.shuttingDown then
        some { s with cluster := s.cluster.performShutdown.1 }
      else none

/-- run a list of events from a configuration. -/
def execTrace {C : Type} (s : Sys C) : List (Ev C) → Option (Sys C)
  | [] => some s
  | e :: es =>
      match step s e with
      | some s2 => execTrace s2 es
      | none => none

/-- the configuration right after the constructor: no live instances; with
`eagerInstances` the constructor immediately calls `createNewInstance`
`maxInstances` times, so that many creations are in flight. -/
def initSys (C : Type) (maxInstances : Nat) (eager : Bool) : Sys C :=
  { cluster :=
      { maxInstances := maxInstances
        instances := []
        instancesBeingCreated := if eager then maxInstances else 0
        state := ClusterState.ready }
    pending := []
    holds := []
    creationsStarted := if eager then maxInstances else 0
    creationsFailed := 0 }

/-- the admission-control invariant together with the creation accounting. -/
def SysInv {C : Type} (s : Sys C) : Prop :=
  s.cluster.instances.length + s.cluster.instancesBeingCreated ≤ s.cluster.maxInstances ∧
  s.creationsStarted =
    s.cluster.instances.length + s.cluster.instancesBeingCreated + s.creationsFailed

/-- the effect of one successful `shutdown()` invocation on an instance with
no scripted failures: the invocation counter is bumped. -/
def bumpCount {C : Type} (b : BasicInstance C) : BasicInstance C :=
  { b with shutdownCount := b.shutdownCount + 1 }

/-- a ready 1-capacity pool whose single free instance rejects its first
`shutdown()` invocation and succeeds afterwards. -/
def failingShutdownPool : Cluster Unit :=
  { maxInstances := 1
    instances := [{ context := (), runningTask := false,
                    shutdownResults := [true], shutdownCount := 0 }]
    instancesBeingCreated := 0
    state := ClusterState.ready }

/-- a ready 1-capacity pool whose single instance is busy running a task and
shuts down cleanly. -/
def busyPool : Cluster Unit :=
  { maxInstances := 1
    instances := [{ context := (), runningTask := true,
                    shutdownResults := [], shutdownCount := 0 }]
    instancesBeingCreated := 0
    state := ClusterState.ready }

/-- a ready 1-capacity pool with one free, cleanly shutting down instance. -/
def freePool : Cluster Nat :=
  { maxInstances := 1
    instances := [{ context := 7, runningTask := false,
                    shutdownResults := [], shutdownCount := 0 }]
    instancesBeingCreated := 0
    state := ClusterState.ready }

/-- the interleaving exhibiting the double hand-out: on an empty 1-capacity
pool, a first submission creates the instance and is handed it
(`finishCreate` with `waited := true`); before its `BasicInstance.submit`
runs `lock` (a separate microtask), a second submission's acquisition body
runs, still sees the instance free, and is handed the same instance
(`pickFree`); then both locks run. -/
def raceTrace : List (Ev Unit) :=
  [Ev.startCreate, Ev.finishCreate () [] true, Ev.pickFree, Ev.lock 0, Ev.lock 0]

/-- the configuration reached after one `startCreate` on an empty lazy pool
of capacity 2: one creation in flight. -/
def creationWitness : Sys Unit :=
  { cluster :=
      { maxInstances := 2
        instances := []
        instancesBeingCreated := 1
        state := ClusterState.ready }
    pending := []
    holds := []
    creationsStarted := 1
    creationsFailed := 0 }

theorem acquireBody_shuttingDown {C : Type} {c : Cluster C}
    (h : c.state = ClusterState.shuttingDown) :
    c.acquireBody = AcquireOutcome.failure
      (AcquireError.unretryable "Cannot submit new tasks because the cluster is shutting down") := by
  simp [Cluster.acquireBody, h]

theorem acquireBody_shutdownState {C : Type} {c : Cluster C}
    (h : c.state = ClusterState.shutdown) :
    c.acquireBody = AcquireOutcome.failure
      (AcquireError.unretryable "Cannot submit new tasks because the cluster has been shutdown") := by
  simp [Cluster.acquireBody, h]

theorem acquireBody_ready_free {C : Type} {c : Cluster C} {i : Nat}
    (hready : c.state = ClusterState.ready)
    (hfree : firstFreeIdx c.instances = some i) :
    c.acquireBody = AcquireOutcome.acquired i := by
  simp [Cluster.acquireBody, hready, hfree]

theorem acquireBody_ready_full {C : Type} {c : Cluster C}
    (hready : c.state = ClusterState.ready)
    (hfree : firstFreeIdx c.instances = none)
    (hfull : c.maxInstances ≤ c.instances.length + c.instancesBeingCreated) :
    c.acquireBody = AcquireOutcome.failure (AcquireError.plainError "") := by
  have hcond : ¬(c.instances.length < c.maxInstances ∧
      c.instancesBeingCreated < c.maxInstances - c.instances.length) := by
    rintro ⟨h1, h2⟩; omega
  simp [Cluster.acquireBody, hready, hfree, hcond]

theorem acquireRun_unretryable {C : Type} {c : Cluster C} {e : AcquireError} {n : Nat}
    (hb : c.acquireBody = AcquireOutcome.failure e)
    (hr : retryDecision e = false) (hn : 0 < n) :
    c.acquireRun n = (Except.error e, 1) := by
  obtain ⟨m, rfl⟩ : ∃ m, n = m + 1 := ⟨n - 1, by omega⟩
  simp [Cluster.acquireRun, Cluster.attemptOutcome, hb, hr]

theorem acquireRun_retryable_exhaust {C : Type} {c : Cluster C} {e : AcquireError}
    (hb : c.acquireBody = AcquireOutcome.failure e)
    (hr : retryDecision e = true) :
    ∀ n : Nat, 0 < n → c.acquireRun n = (Except.error e, n) := by
  intro n
  induction n with
  | zero => intro h; omega
  | succ m ih =>
      intro _
      by_cases hm : m = 0
      · subst hm; simp [Cluster.acquireRun, Cluster.attemptOutcome, hb, hr]
      · have hrec := ih (by omega)
        simp [Cluster.acquireRun, Cluster.attemptOutcome, hb, hr, hm, hrec]

/-- Claim C3: a `submit` call while the pool is draining rejects immediately
with the string `"Cannot submit new tasks because the cluster is shutting
down"`, and while terminated with `"Cannot submit new tasks because the
cluster has been shutdown"`; both are unretryable — the backoff loop stops
after exactly one attempt whatever the allowed attempt count — whereas a
full-pool capacity failure is retried until the allowed attempts are
exhausted. -/
theorem claim_C3_lifecycle_rejections {C : Type} (c : Cluster C) (n : Nat)
    (hn : 0 < n) :
    (c.state = ClusterState.shuttingDown →
      c.acquireRun n =
        (Except.error (AcquireError.unretryable
          "Cannot submit new tasks because the cluster is shutting down"), 1) ∧
      c.acquireReject n =
        some "Cannot submit new tasks because the cluster is shutting down") ∧
    (c.state = ClusterState.shutdown →
      c.acquireRun n =
        (Except.error (AcquireError.unretryable
          "Cannot submit new tasks because the cluster has been shutdown"), 1) ∧
      c.acquireReject n =
        some "Cannot submit new tasks because the cluster has been shutdown") ∧
    (c.state = ClusterState.ready → firstFreeIdx c.instances = none →
      c.maxInstances ≤ c.instances.length + c.instancesBeingCreated →
      (c.acquireRun n).2 = n) := by
  refine ⟨fun h => ?_, fun h => ?_, fun h1 h2 h3 => ?_⟩
  · have hrun := acquireRun_unretryable (acquireBody_shuttingDown h) rfl hn
    exact ⟨hrun, by simp [Cluster.acquireReject, hrun, errorMessage]⟩
  · have hrun := acquireRun_unretryable (acquireBody_shutdownState h) rfl hn
    exact ⟨hrun, by simp [Cluster.acquireReject, hrun, errorMessage]⟩
  · have hrun := acquireRun_retryable_exhaust (acquireBody_ready_full h1 h2 h3) rfl n hn
    simp [hrun]

theorem claim_C3_witness :
    ((0 : Nat) < 4) ∧
    ((({ busyPool with state := ClusterState.shuttingDown } : Cluster Unit).state =
          ClusterState.shuttingDown →
        ({ busyPool with state := ClusterState.shuttingDown } : Cluster Unit).acquireRun 4 =
          (Except.error (AcquireError.unretryable
            "Cannot submit new tasks because the cluster is shutting down"), 1) ∧
        ({ busyPool with state := ClusterState.shuttingDown } : Cluster Unit).acquireReject 4 =
          some "Cannot submit new tasks because the cluster is shutting down") ∧
      (({ busyPool with state := ClusterState.shuttingDown } : Cluster Unit).state =
          ClusterState.shutdown →
        ({ busyPool with state := ClusterState.shuttingDown } : Cluster Unit).acquireRun 4 =
          (Except.error (AcquireError.unretryable
            "Cannot submit new tasks because the cluster has been shutdown"), 1) ∧
        ({ busyPool with state := ClusterState.shuttingDown } : Cluster Unit).acquireReject 4 =
          some "Cannot submit new tasks because the cluster has been shutdown") ∧
      (({ busyPool with state := ClusterState.shuttingDown } : Cluster Unit).state =
          ClusterState.ready →
        firstFreeIdx ({ busyPool with state := ClusterState.shuttingDown } : Cluster Unit).instances = none →
        ({ busyPool with state := ClusterState.shuttingDown } : Cluster Unit).maxInstances ≤
          ({ busyPool with state := ClusterState.shuttingDown } : Cluster Unit).instances.length +
          ({ busyPool with state := ClusterState.shuttingDown } : Cluster Unit).instancesBeingCreated →
        (({ busyPool with state := ClusterState.shuttingDown } : Cluster Unit).acquireRun 4).2 = 4)) :=
  ⟨by decide, claim_C3_lifecycle_rejections { busyPool with state := ClusterState.shuttingDown } 4 (by decide)⟩

/-- Claim C9: whichever way the task body settles — resolved or thrown — the
instance run by `BasicInstance.submit` comes back with its busy flag cleared
(`isFree` is true again): the release lives on the `finally` path. -/
theorem claim_C9_release_after_task {C E R : Type} (b : BasicInstance C)
    (task : C → Except E R) :
    (b.submit task).1.isFree = true ∧ (b.submit task).1.runningTask = false := by
  constructor <;> rfl

/-- Claim C10: on a ready pool with no free instance and no remaining
creation capacity, the acquisition body throws `new Error()`, whose message
is the empty string; once the retries are exhausted, the caller's `submit`
promise is rejected with `""` as its reason. -/
theorem claim_C10_empty_error_message {C : Type} (c : Cluster C) (n : Nat)
    (hn : 0 < n)
    (hready : c.state = ClusterState.ready)
    (hfree : firstFreeIdx c.instances = none)
    (hfull : c.maxInstances ≤ c.instances.length + c.instancesBeingCreated) :
    c.acquireBody = AcquireOutcome.failure (AcquireError.plainError "") ∧
    c.acquireRun n = (Except.error (AcquireError.plainError ""), n) ∧
    c.acquireReject n = some "" := by
  have hb := acquireBody_ready_full hready hfree hfull
  have hrun := acquireRun_retryable_exhaust hb rfl n hn
  exact ⟨hb, hrun, by simp [Cluster.acquireReject, hrun, errorMessage]⟩

theorem claim_C10_witness :
    ((0 : Nat) < 3) ∧ busyPool.state = ClusterState.ready ∧
    firstFreeIdx busyPool.instances = none ∧
    busyPool.maxInstances ≤ busyPool.instances.length + busyPool.instancesBeingCreated ∧
    (busyPool.acquireBody = AcquireOutcome.failure (AcquireError.plainError "") ∧
     busyPool.acquireRun 3 = (Except.error (AcquireError.plainError ""), 3) ∧
     busyPool.acquireReject 3 = some "") :=
  ⟨by decide, rfl, by decide, by decide,
   claim_C10_empty_error_message busyPool 3 (by decide) rfl (by decide) (by decide)⟩

theorem invokeShutdown_nil {C : Type} {b : BasicInstance C}
    (h : b.shutdownResults = []) :
    b.invokeShutdown = (bumpCount b, false) := by
  simp [BasicInstance.invokeShutdown, h, bumpCount]

theorem shutdownAll_nofail {C : Type} :
    ∀ l : List (BasicInstance C), (∀ b ∈ l, b.shutdownResults = []) →
      shutdownAll l = (l.map bumpCount, true) := by
  intro l
  induction l with
  | nil => intro _; rfl
  | cons b bs ih =>
      intro h
      have hb := invokeShutdown_nil (h b (by simp))
      have hrest := ih (fun x hx => h x (by simp [hx]))
      simp [shutdownAll, hb, hrest]

theorem performShutdown_nofail {C : Type} {c : Cluster C}
    (h : ∀ b ∈ c.instances, b.shutdownResults = []) :
    c.performShutdown =
      ({ c with instances := c.instances.map bumpCount,
                state := ClusterState.shutdown }, true) := by
  simp [Cluster.performShutdown, shutdownAll_nofail c.instances h]

theorem runGraceful_cons_cons {C : Type} (c : Cluster C) (k k2 : Nat) (r2 : List Nat) :
    c.runGraceful (k :: k2 :: r2) =
      if 0 < k then c.runGraceful (k2 :: r2)
      else
        match c.performShutdown with
        | (c2, true) => (c2, true)
        | (c2, false) => c2.runGraceful (k2 :: r2) := rfl

theorem runGraceful_allbusy {C : Type} (c : Cluster C) :
    ∀ sched : List Nat, (∀ k ∈ sched, 0 < k) →
      c.runGraceful sched = (c, false) := by
  intro sched
  induction sched with
  | nil => intro _; rfl
  | cons k rest ih =>
      intro h
      have hk : 0 < k := h k (by simp)
      cases rest with
      | nil => simp [Cluster.runGraceful, hk]
      | cons k2 r2 =>
          have hr := ih (fun x hx => h x (by simp [hx]))
          rw [runGraceful_cons_cons]
          simp [hk, hr]

theorem runGraceful_nofail {C : Type} (c : Cluster C)
    (h : ∀ b ∈ c.instances, b.shutdownResults = []) :
    ∀ sched : List Nat,
      c.runGraceful sched = (c, false) ∨
      c.runGraceful sched =
        ({ c with instances := c.instances.map bumpCount,
                  state := ClusterState.shutdown }, true) := by
  intro sched
  induction sched with
  | nil => left; rfl
  | cons k rest ih =>
      by_cases hk : 0 < k
      · cases rest with
        | nil => left; simp [Cluster.runGraceful, hk]
        | cons k2 r2 =>
            rcases ih with h1 | h1
            · left; rw [runGraceful_cons_cons]; simp [hk, h1]
            · right; rw [runGraceful_cons_cons]; simp [hk, h1]
      · right
        have hk0 : k = 0 := by omega
        subst hk0
        simp [Cluster.runGraceful, performShutdown_nofail h]

theorem shutdown_nofail {C : Type} {c : Cluster C} (sched : List Nat)
    (hready : c.state = ClusterState.ready)
    (h : ∀ b ∈ c.instances, b.shutdownResults = []) :
    c.shutdown sched =
      ({ c with instances := c.instances.map bumpCount,
                state := ClusterState.shutdown }, Except.ok true) := by
  have h1 : ∀ b ∈ ({ c with state := ClusterState.shuttingDown } : Cluster C).instances,
      b.shutdownResults = [] := h
  rcases runGraceful_nofail { c with state := ClusterState.shuttingDown } h1 sched with h2 | h2
  · simp [Cluster.shutdown, hready, h2,
      @performShutdown_nofail C { c with state := ClusterState.shuttingDown } h1]
  · simp [Cluster.shutdown, hready, h2]

theorem shutdownNow_nofail {C : Type} {c : Cluster C}
    (hready : c.state = ClusterState.ready)
    (h : ∀ b ∈ c.instances, b.shutdownResults = []) :
    c.shutdownNow =
      ({ c with instances := c.instances.map bumpCount,
                state := ClusterState.shutdown }, Except.ok true) := by
  have h1 : ∀ b ∈ ({ c with state := ClusterState.shuttingDown } : Cluster C).instances,
      b.shutdownResults = [] := h
  simp [Cluster.shutdownNow, hready,
    @performShutdown_nofail C { c with state := ClusterState.shuttingDown } h1]

theorem shutdown_notReady {C : Type} {c : Cluster C} (sched : List Nat)
    (h : ¬c.state = ClusterState.ready) :
    c.shutdown sched = (c, Except.ok false) := by
  simp [Cluster.shutdown, h]

theorem shutdownNow_notReady {C : Type} {c : Cluster C}
    (h : ¬c.state = ClusterState.ready) :
    c.shutdownNow = (c, Except.ok false) := by
  simp [Cluster.shutdownNow, h]

/-- Claim C4: `shutdown()` and `shutdownNow()` both resolve `true` when
entered on a ready pool (once termination completes), and are `false` no-ops
in every other state; in particular calling either twice returns `true` then
`false`. -/
theorem claim_C4_shutdown_twice {C : Type} (c : Cluster C) (sched sched2 : List Nat)
    (hready : c.state = ClusterState.ready)
    (hok : ∀ b ∈ c.instances, b.shutdownResults = []) :
    ((c.shutdown sched).2 = Except.ok true ∧
     ((c.shutdown sched).1.shutdown sched2).2 = Except.ok false) ∧
    (c.shutdownNow.2 = Except.ok true ∧
     (c.shutdownNow.1.shutdownNow).2 = Except.ok false) ∧
    (∀ d : Cluster C, ¬d.state = ClusterState.ready →
      d.shutdown sched = (d, Except.ok false) ∧
      d.shutdownNow = (d, Except.ok false)) := by
  have hs := shutdown_nofail sched hready hok
  have hn := shutdownNow_nofail hready hok
  refine ⟨⟨by rw [hs], ?_⟩, ⟨by rw [hn], ?_⟩,
    fun d hd => ⟨shutdown_notReady sched hd, shutdownNow_notReady hd⟩⟩
  · rw [hs, shutdown_notReady sched2 (by simp)]
  · rw [hn, shutdownNow_notReady (by simp)]

theorem claim_C4_witness :
    ((busyPool.shutdown [1]).2 = Except.ok true ∧
     ((busyPool.shutdown [1]).1.shutdown []).2 = Except.ok false) ∧
    (busyPool.shutdownNow.2 = Except.ok true ∧
     (busyPool.shutdownNow.1.shutdownNow).2 = Except.ok false) ∧
    (∀ d : Cluster Unit, ¬d.state = ClusterState.ready →
      d.shutdown [1] = (d, Except.ok false) ∧
      d.shutdownNow = (d, Except.ok false)) :=
  claim_C4_shutdown_twice busyPool [1] [] rfl (by decide)

/-- Claim C5 counterexample: on a ready 1-capacity pool whose single free
instance rejects its first `shutdown()` invocation, `shutdown()` resolves
`true` — yet that instance's shutdown has been invoked twice (the rejection
makes the backoff loop rerun `performShutdown`), refuting "invoked exactly
once ... even when some context's shutdown fails". -/
theorem claim_C5_counterexample :
    (failingShutdownPool.shutdown [0, 0]).2 = Except.ok true ∧
    (failingShutdownPool.shutdown [0, 0]).1.instances.map
      (fun b => b.shutdownCount) = [2] := by
  constructor <;> rfl

theorem invokeShutdown_fst_count {C : Type} (b : BasicInstance C) :
    b.invokeShutdown.1.shutdownCount = b.shutdownCount + 1 := by
  cases hb : b.shutdownResults <;> simp [BasicInstance.invokeShutdown, hb]

theorem shutdownAll_counts {C : Type} :
    ∀ l : List (BasicInstance C),
      (shutdownAll l).1.map (fun b => b.shutdownCount) =
        l.map (fun b => b.shutdownCount + 1) := by
  intro l
  induction l with
  | nil => rfl
  | cons b bs ih => simp [shutdownAll, invokeShutdown_fst_count, ih]

theorem performShutdown_counts {C : Type} (c : Cluster C) :
    c.performShutdown.1.instances.map (fun b => b.shutdownCount) =
      c.instances.map (fun b => b.shutdownCount + 1) := by
  unfold Cluster.performShutdown
  split <;> simp [shutdownAll_counts]

theorem performShutdown_counts_pos {C : Type} (c : Cluster C) :
    ∀ b ∈ c.performShutdown.1.instances, 1 ≤ b.shutdownCount := by
  intro b hb
  have hmem : b.shutdownCount ∈
      c.performShutdown.1.instances.map (fun x => x.shutdownCount) :=
    List.mem_map_of_mem _ hb
  rw [performShutdown_counts] at hmem
  rcases List.mem_map.mp hmem with ⟨a, _, ha⟩
  omega

theorem runGraceful_true_counts {C : Type} :
    ∀ (sched : List Nat) (c c2 : Cluster C),
      c.runGraceful sched = (c2, true) →
      ∀ b ∈ c2.instances, 1 ≤ b.shutdownCount := by
  intro sched
  induction sched with
  | nil =>
      intro c c2 h
      exact absurd h (by simp [Cluster.runGraceful])
  | cons k rest ih =>
      intro c c2 h
      cases rest with
      | nil =>
          by_cases hk : 0 < k
          · simp [Cluster.runGraceful, hk] at h
          · have hk0 : k = 0 := by omega
            subst hk0
            cases hp : c.performShutdown with
            | mk c3 res =>
                rw [show c.runGraceful [0] =
                      (match c.performShutdown with
                       | (c3, true) => (c3, true)
                       | (c3, false) => (c3, false)) from rfl, hp] at h
                cases res with
                | true =>
                    cases h
                    have hpos := performShutdown_counts_pos c
                    rw [hp] at hpos
                    exact hpos
                | false => simp at h
      | cons k2 r2 =>
          rw [runGraceful_cons_cons] at h
          by_cases hk : 0 < k
          · rw [if_pos hk] at h
            exact ih c c2 h
          · rw [if_neg hk] at h
            cases hp : c.performShutdown with
            | mk c3 res =>
                rw [hp] at h
                cases res with
                | true =>
                    cases h
                    have hpos := performShutdown_counts_pos c
                    rw [hp] at hpos
                    exact hpos
                | false => exact ih c3 c2 h

/-- Claim C5 (amended): once `shutdown()` on a ready pool settles — in
particular whenever it resolves `true` — every live context's shutdown has
been invoked at least once (none skipped), even when some invocations fail;
it has been invoked exactly once on every context provided no context's
shutdown invocation fails.  When one fails, the whole retried sequence (busy
check plus `performShutdown`) reruns and contexts can have their shutdown
invoked more than once. -/
theorem claim_C5_amended_exactly_once {C : Type} (c : Cluster C) (sched : List Nat)
    (hready : c.state = ClusterState.ready)
    (h0 : ∀ b ∈ c.instances, b.shutdownCount = 0) :
    (∀ b ∈ (c.shutdown sched).1.instances, 1 ≤ b.shutdownCount) ∧
    ((∀ b ∈ c.instances, b.shutdownResults = []) →
      (c.shutdown sched).2 = Except.ok true ∧
      ∀ b ∈ (c.shutdown sched).1.instances, b.shutdownCount = 1) := by
  constructor
  · unfold Cluster.shutdown
    rw [if_pos hready]
    cases hg : Cluster.runGraceful { c with state := ClusterState.shuttingDown } sched with
    | mk c2 res =>
        cases res with
        | true =>
            intro b hb
            exact runGraceful_true_counts sched _ c2 hg b hb
        | false =>
            dsimp only
            cases hp : c2.performShutdown with
            | mk c3 ok =>
                have hpos := performShutdown_counts_pos c2
                rw [hp] at hpos
                cases ok <;> intro b hb <;> exact hpos b hb
  · intro hok
    have hs := shutdown_nofail sched hready hok
    refine ⟨by rw [hs], ?_⟩
    rw [hs]
    intro b hb
    dsimp at hb
    rcases List.mem_map.mp hb with ⟨a, ha, rfl⟩
    simp [bumpCount, h0 a ha]

theorem claim_C5_witness :
    (∀ b ∈ (freePool.shutdown [0]).1.instances, 1 ≤ b.shutdownCount) ∧
    ((∀ b ∈ freePool.instances, b.shutdownResults = []) →
      (freePool.shutdown [0]).2 = Except.ok true ∧
      ∀ b ∈ (freePool.shutdown [0]).1.instances, b.shutdownCount = 1) :=
  claim_C5_amended_exactly_once freePool [0] rfl (by decide)

/-- Claim C6: when `shutdown()` is entered on a ready pool and every
graceful attempt still sees busy contexts until the retries are exhausted,
no error surfaces: the `.catch` falls through to the forceful
`performShutdown` (every context is shut down) and the call still resolves
`true`. -/
theorem claim_C6_graceful_exhaustion_forces {C : Type} (c : Cluster C)
    (sched : List Nat)
    (hready : c.state = ClusterState.ready)
    (hbusy : ∀ k ∈ sched, 0 < k)
    (hok : ∀ b ∈ c.instances, b.shutdownResults = []) :
    (c.shutdown sched).2 = Except.ok true ∧
    (c.shutdown sched).1.state = ClusterState.shutdown ∧
    (c.shutdown sched).1.instances.map (fun b => b.shutdownCount) =
      c.instances.map (fun b => b.shutdownCount + 1) := by
  have hg := runGraceful_allbusy { c with state := ClusterState.shuttingDown } sched hbusy
  have hp := @performShutdown_nofail C { c with state := ClusterState.shuttingDown } hok
  have hall : c.shutdown sched =
      ({ c with instances := c.instances.map bumpCount,
                state := ClusterState.shutdown }, Except.ok true) := by
    simp [Cluster.shutdown, hready, hg, hp]
  rw [hall]
  refine ⟨rfl, rfl, ?_⟩
  dsimp
  rw [List.map_map]
  rfl

theorem claim_C6_witness :
    (busyPool.shutdown [1, 2]).2 = Except.ok true ∧
    (busyPool.shutdown [1, 2]).1.state = ClusterState.shutdown ∧
    (busyPool.shutdown [1, 2]).1.instances.map (fun b => b.shutdownCount) =
      busyPool.instances.map (fun b => b.shutdownCount + 1) :=
  claim_C6_graceful_exhaustion_forces busyPool [1, 2] rfl (by decide) (by decide)

/-- Claim C7: `shutdownNow()` on a ready pool performs the forceful sequence
at once — every context's shutdown is invoked and the state becomes
terminated — and resolves `true` without waiting for busy contexts: the busy
flags (hence any still-running task) are untouched. -/
theorem claim_C7_shutdown_now_immediate {C : Type} (c : Cluster C)
    (hready : c.state = ClusterState.ready)
    (hok : ∀ b ∈ c.instances, b.shutdownResults = []) :
    c.shutdownNow.2 = Except.ok true ∧
    c.shutdownNow.1.state = ClusterState.shutdown ∧
    c.shutdownNow.1.instances.map (fun b => b.runningTask) =
      c.instances.map (fun b => b.runningTask) ∧
    c.shutdownNow.1.instances.map (fun b => b.shutdownCount) =
      c.instances.map (fun b => b.shutdownCount + 1) := by
  have hn := shutdownNow_nofail hready hok
  rw [hn]
  refine ⟨rfl, rfl, ?_, ?_⟩ <;> dsimp <;> rw [List.map_map] <;> rfl

theorem claim_C7_witness :
    busyPool.shutdownNow.2 = Except.ok true ∧
    busyPool.shutdownNow.1.state = ClusterState.shutdown ∧
    busyPool.shutdownNow.1.instances.map (fun b => b.runningTask) =
      busyPool.instances.map (fun b => b.runningTask) ∧
    busyPool.shutdownNow.1.instances.map (fun b => b.shutdownCount) =
      busyPool.instances.map (fun b => b.shutdownCount + 1) :=
  claim_C7_shutdown_now_immediate busyPool rfl (by decide)

/-- Claim C8: when the acquisition body of a ready pool finds a free
instance, `submit` hands the task that instance's payload and resolves with
exactly the task's own settled outcome — a resolved value comes back
unmodified and a thrown error propagates unchanged (the `finally` release
does not alter the outcome). -/
theorem claim_C8_task_result_roundtrip {C E R : Type} (c : Cluster C)
    (task : C → Except E R) (i : Nat)
    (hready : c.state = ClusterState.ready)
    (hfree : firstFreeIdx c.instances = some i) :
    (c.submitOnFree task).map Prod.snd =
      c.instances[i]?.map (fun b => task b.context) := by
  have hb := acquireBody_ready_free hready hfree
  unfold Cluster.submitOnFree
  rw [hb]
  rcases hg : c.instances[i]? with _ | b <;>
    simp [hg, BasicInstance.submit, BasicInstance.lock, BasicInstance.release]

theorem claim_C8_witness :
    (freePool.submitOnFree (fun x => (Except.ok (x + 1) : Except String Nat))).map
        Prod.snd =
      freePool.instances[0]?.map
        (fun b => (Except.ok (b.context + 1) : Except String Nat)) :=
  claim_C8_task_result_roundtrip freePool
    (fun x => (Except.ok (x + 1) : Except String Nat)) 0 rfl rfl

theorem acquireBody_createNew_lt {C : Type} {c : Cluster C}
    (h : c.acquireBody = AcquireOutcome.createNew) :
    c.instances.length + c.instancesBeingCreated < c.maxInstances := by
  unfold Cluster.acquireBody at h
  split at h
  · simp at h
  · split at h
    · simp at h
    · split at h
      · split at h
        next hcond => omega
        next => simp at h
      next i hsome => simp at h

theorem shutdownAll_length {C : Type} :
    ∀ l : List (BasicInstance C), (shutdownAll l).1.length = l.length := by
  intro l
  induction l with
  | nil => rfl
  | cons b bs ih => simp [shutdownAll, ih]

theorem performShutdown_fst_proj {C : Type} (c : Cluster C) :
    c.performShutdown.1.instances.length = c.instances.length ∧
    c.performShutdown.1.maxInstances = c.maxInstances ∧
    c.performShutdown.1.instancesBeingCreated = c.instancesBeingCreated := by
  unfold Cluster.performShutdown
  split <;> simp [shutdownAll_length]

theorem step_inv {C : Type} {s s2 : Sys C} {e : Ev C}
    (hs : step s e = some s2) (h : SysInv s) : SysInv s2 := by
  obtain ⟨h1, h2⟩ := h
  cases e with
  | startCreate =>
      simp only [step] at hs
      cases hb : s.cluster.acquireBody <;> rw [hb] at hs <;> simp at hs
      case createNew =>
        have hlt := acquireBody_createNew_lt hb
        subst hs
        unfold SysInv
        refine ⟨?_, ?_⟩ <;> dsimp <;> omega
  | pickFree =>
      simp only [step] at hs
      cases hb : s.cluster.acquireBody <;> rw [hb] at hs <;> simp at hs
      case acquired i =>
        subst hs
        exact ⟨h1, h2⟩
  | finishCreate ctx results waited =>
      simp only [step] at hs
      split at hs
      · simp at hs
      next hn =>
        simp only [Option.some.injEq] at hs
        subst hs
        unfold SysInv
        refine ⟨?_, ?_⟩ <;> simp <;> omega
  | failCreate =>
      simp only [step] at hs
      split at hs
      · simp at hs
      next hn =>
        simp only [Option.some.injEq] at hs
        subst hs
        unfold SysInv
        refine ⟨?_, ?_⟩ <;> dsimp <;> omega
  | lock k =>
      simp only [step] at hs
      cases hp : s.pending[k]? <;> rw [hp] at hs
      · simp at hs
      next i =>
        simp only [] at hs
        cases hbi : s.cluster.instances[i]? <;> rw [hbi] at hs <;> simp at hs
        next b =>
          subst hs
          unfold SysInv
          refine ⟨?_, ?_⟩ <;> simp [List.length_set] <;> omega
  | release k =>
      simp only [step] at hs
      cases hp : s.holds[k]? <;> rw [hp] at hs
      · simp at hs
      next i =>
        simp only [] at hs
        cases hbi : s.cluster.instances[i]? <;> rw [hbi] at hs <;> simp at hs
        next b =>
          subst hs
          unfold SysInv
          refine ⟨?_, ?_⟩ <;> simp [List.length_set] <;> omega
  | reqShutdown =>
      simp only [step] at hs
      split at hs
      · simp only [Option.some.injEq] at hs
        subst hs
        exact ⟨h1, h2⟩
      · simp at hs
  | doneShutdown =>
      simp only [step] at hs
      split at hs
      · simp only [Option.some.injEq] at hs
        subst hs
        obtain ⟨p1, p2, p3⟩ := performShutdown_fst_proj s.cluster
        unfold SysInv
        refine ⟨?_, ?_⟩ <;> dsimp <;> simp only [p1, p2, p3] <;> omega
      · simp at hs

theorem execTrace_inv {C : Type} :
    ∀ (evs : List (Ev C)) (s s2 : Sys C),
      SysInv s → execTrace s evs = some s2 → SysInv s2 := by
  intro evs
  induction evs with
  | nil =>
      intro s s2 h he
      unfold execTrace at he
      simp at he
      subst he
      exact h
  | cons e es ih =>
      intro s s2 h he
      unfold execTrace at he
      cases hstep : step s e <;> rw [hstep] at he
      · simp at he
      next s3 => exact ih s3 s2 (step_inv hstep h) he

theorem initSys_inv (C : Type) (maxInstances : Nat) (eager : Bool) :
    SysInv (initSys C maxInstances eager) := by
  unfold SysInv initSys
  cases eager <;> simp

/-- Claim C1: along every trace of the interleaving semantics, from a lazily
or eagerly initialised pool, the number of live instances plus the number of
in-flight creations never exceeds the configured maximum; consequently, as
long as no creation fails, the total number of creations ever started is at
most the maximum — with a slow factory and any number of concurrent
submissions, at most `maxInstances` contexts are ever created. -/
theorem claim_C1_admission_invariant {C : Type} (maxInstances : Nat)
    (eager : Bool) (evs : List (Ev C)) (s : Sys C)
    (h : execTrace (initSys C maxInstances eager) evs = some s) :
    s.cluster.instances.length + s.cluster.instancesBeingCreated ≤
      s.cluster.maxInstances ∧
    (s.creationsFailed = 0 →
      s.creationsStarted ≤ s.cluster.maxInstances) := by
  obtain ⟨h1, h2⟩ := execTrace_inv evs _ s (initSys_inv C maxInstances eager) h
  exact ⟨h1, fun hf => by omega⟩

theorem claim_C1_witness :
    creationWitness.cluster.instances.length +
        creationWitness.cluster.instancesBeingCreated ≤
      creationWitness.cluster.maxInstances ∧
    (creationWitness.creationsFailed = 0 →
      creationWitness.creationsStarted ≤ creationWitness.cluster.maxInstances) :=
  @claim_C1_admission_invariant Unit 2 false [Ev.startCreate] creationWitness
    (by decide)

/-- Claim C2 (code bug): on an empty 1-capacity pool, `raceTrace` is a valid
interleaving of two submissions in which both are handed the same instance
and both lock it: the final configuration has two concurrent holders of
instance 0 (`holds = [0, 0]`).  Moreover after the first four events the
second submission is still pending on instance 0 while its busy flag is
already `true` — the second task is handed (and then locks) a context whose
busy flag is already set, because `acquire` returns `freeInstances[0]`
without marking it busy and the `lock` of `BasicInstance.submit` only runs
in a later microtask. -/
theorem claim_C2_double_acquire :
    (execTrace (initSys Unit 1 false) raceTrace).map
        (fun s => (s.holds, s.cluster.instances.map (fun b => b.runningTask))) =
      some ([0, 0], [true]) ∧
    (execTrace (initSys Unit 1 false) (raceTrace.take 4)).map
        (fun s => (s.pending, s.cluster.instances.map (fun b => b.runningTask))) =
      some ([0], [true]) := by
  constructor <;> decide
